import Mathlib

/-!
zgdist: fast approximate geographical distance

A shallow embedding of `zgdist.c` / `zgdist.h` and a verification of its
specification.

The C translation unit is written once against the names `ZGDIST_real`,
`ZGDIST_cos`, `ZGDIST_sqrt` that the included header binds (to `double`, `cos`,
`sqrt` in `zgdist.h`, to `float`, `cosf`, `sqrtf` in `zgdistf.h`).  The embedding
keeps that shape: every function is a computable definition over an arbitrary
carrier `α` with the four arithmetic operations and literals, and takes the
`<math.h>` bindings as a record `MathEnv α`.  The theorems instantiate the carrier
with `ℝ` (`exactReal`), which is what "in exact real arithmetic" means below.

The object-like macros of the header are not parenthesised, so they are expanded
textually at each use, exactly as the preprocessor does:

* `ZGDIST_DEGREE`   is `M_PI / 180.0`
* `ZGDIST_F_EARTH`  is `(ZGDIST_A_EARTH - ZGDIST_B_EARTH) / ZGDIST_A_EARTH`
* `ZGDIST_E2_EARTH` is `ZGDIST_F_EARTH * (2 - ZGDIST_F_EARTH)`

Lean and C agree on the precedence and left associativity of `*`, `/`, `+`, `-`,
so the expanded text is written down token for token.

Over `ℝ` the square root of a negative number and a quotient by zero are `0` by
convention, where C yields a NaN or an infinity.  Neither convention is ever used by
the code: the argument of the square root in `ZGDIST_dist` is a sum of two squares,
and the one that defines `v` is positive at every latitude (`vAt_arg_pos`, `vAt_pos`).
-/

namespace ZGDist

/-! ## Data model -/

/-- Container for storing projection multipliers (`struct ZGDIST_M`). -/
structure ZGDIST_M (α : Type) where
  latm : α
  lonm : α

/-- The names the translation unit takes from `<math.h>` through the header:
`ZGDIST_cos`, `ZGDIST_sqrt` and the constant `M_PI`. -/
structure MathEnv (α : Type) where
  ZGDIST_cos : α → α
  ZGDIST_sqrt : α → α
  M_PI : α

section Code

variable {α : Type} [Add α] [Sub α] [Mul α] [Div α]
variable [OfNat α 0] [OfNat α 1] [OfNat α 2] [OfScientific α]

/-- Semi major axis, kilometers: `#define ZGDIST_A_EARTH 6378.137`. -/
def ZGDIST_A_EARTH : α := 6378.137

/-- Semi minor axis, kilometers: `#define ZGDIST_B_EARTH 6356.752314245`. -/
def ZGDIST_B_EARTH : α := 6356.752314245

/-- Unit multiplier `#define ZGDIST_UNIT_KM 1.0`. -/
def ZGDIST_UNIT_KM : α := 1.0

/-- Unit multiplier `#define ZGDIST_UNIT_M 1000.0`. -/
def ZGDIST_UNIT_M : α := 1000.0

/-- Unit per degree difference (`zgdist.c`, lines 88-103): the radius of curvature in
the meridian and in the prime vertical at latitude `lat`, times a unit multiplier.
The macros `ZGDIST_DEGREE`, `ZGDIST_F_EARTH`, `ZGDIST_E2_EARTH` are expanded textually. -/
def ZGDIST_u_per_deg_difference (env : MathEnv α) (lat unitm : α) : ZGDIST_M α :=
  -- ZGDIST_real coslat = ZGDIST_cos(lat * ZGDIST_DEGREE);
  let coslat : α := env.ZGDIST_cos (lat * env.M_PI / 180.0)
  -- ZGDIST_real v = ZGDIST_sqrt(1 - (ZGDIST_E2_EARTH * (1 - coslat * coslat)));
  let v : α := env.ZGDIST_sqrt
    (1 - ((ZGDIST_A_EARTH - ZGDIST_B_EARTH) / ZGDIST_A_EARTH
            * (2 - (ZGDIST_A_EARTH - ZGDIST_B_EARTH) / ZGDIST_A_EARTH)
            * (1 - coslat * coslat)))
  -- m.latm = ZGDIST_DEGREE * (ZGDIST_A_EARTH * (1 - ZGDIST_E2_EARTH)) / (v * v * v) * unitm;
  -- m.lonm = ZGDIST_DEGREE * coslat * (ZGDIST_A_EARTH / v) * unitm;
  { latm :=
      env.M_PI / 180.0
        * (ZGDIST_A_EARTH
            * (1 - (ZGDIST_A_EARTH - ZGDIST_B_EARTH) / ZGDIST_A_EARTH
                    * (2 - (ZGDIST_A_EARTH - ZGDIST_B_EARTH) / ZGDIST_A_EARTH)))
        / (v * v * v) * unitm
    lonm := env.M_PI / 180.0 * coslat * (ZGDIST_A_EARTH / v) * unitm }

/-- Distance between two points with Euclidean plane conversion multipliers
(`zgdist.c`, lines 109-120). -/
def ZGDIST_dist (env : MathEnv α) (lat1 lon1 lat2 lon2 latm lonm : α) : α :=
  let dy : α := (lat2 - lat1) * latm
  let dx : α := (lon2 - lon1) * lonm
  env.ZGDIST_sqrt (dy * dy + dx * dx)

/-- The `for` loop of `ZGDIST_vdist` (`zgdist.c`, lines 136-140), entered with loop
counter `i` and accumulator `d`; `bound` is the value of `n - 1`.  Array reads are
bounds checked: a read outside `vlat` or `vlon` ends the run with `none`.  The
counter never wraps: inside the body `i < bound`, and `bound` is a `size_t` value. -/
def ZGDIST_vdist_loop (env : MathEnv α) (vlat vlon : Array α) (latm lonm : α)
    (bound i : Nat) (d : α) : Option α :=
  if i < bound then
    match vlat[i]?, vlon[i]?, vlat[i + 1]?, vlon[i + 1]? with
    | some lat1, some lon1, some lat2, some lon2 =>
      ZGDIST_vdist_loop env vlat vlon latm lonm bound (i + 1)
        (d + ZGDIST_dist env lat1 lon1 lat2 lon2 latm lonm)
    | _, _, _, _ => none
  else
    some d
termination_by bound - i

/-- Distance among multiple points (`zgdist.c`, lines 128-142).  `w` is the width of
`size_t` in bits and `n` a `size_t` value (`n < 2 ^ w`); the loop bound `n - 1` is
computed in `size_t` arithmetic, that is modulo `2 ^ w`. -/
def ZGDIST_vdist (env : MathEnv α) (w : Nat) (vlat vlon : Array α) (n : Nat)
    (latm lonm : α) : Option α :=
  ZGDIST_vdist_loop env vlat vlon latm lonm ((n + 2 ^ w - 1) % 2 ^ w) 0 0

end Code

/-! ## Instantiations -/

/-- The double precision build of `zgdist.h`: `double`, `cos`, `sqrt`, and the value
of `M_PI`. -/
def doubleEnv : MathEnv Float := ⟨Float.cos, Float.sqrt, 3.14159265358979323846⟩

/-- Exact real arithmetic: the real cosine, the real square root and `π`. -/
noncomputable def exactReal : MathEnv ℝ := ⟨Real.cos, Real.sqrt, Real.pi⟩

/-! ## Reference formulas of the specification -/

/-- The scale factors as the specification writes them (section 4.1), with the sine
taken directly: `latRad = lat * (π/180)`, `f = (a - b) / a`, `e² = f * (2 - f)`,
`v = sqrt (1 - e² * sin² latRad)`, `latFactor = (π/180) * a * (1 - e²) / v³ * u`,
`lonFactor = (π/180) * cos latRad * (a / v) * u`. -/
noncomputable def spec_deriveScaleFactors (lat u : ℝ) : ZGDIST_M ℝ :=
  let a : ℝ := 6378.137
  let b : ℝ := 6356.752314245
  let f : ℝ := (a - b) / a
  let e2 : ℝ := f * (2 - f)
  let latRad : ℝ := lat * (Real.pi / 180)
  let v : ℝ := Real.sqrt (1 - e2 * Real.sin latRad ^ 2)
  { latm := (Real.pi / 180) * a * (1 - e2) / v ^ 3 * u
    lonm := (Real.pi / 180) * Real.cos latRad * (a / v) * u }

/-! ## Unfolding the code over the reals -/

/-- The squared eccentricity as the expanded macro text computes it. -/
noncomputable def e2Earth : ℝ :=
  (6378.137 - 6356.752314245) / 6378.137 * (2 - (6378.137 - 6356.752314245) / 6378.137)

/-- The value of the local variable `v` of `ZGDIST_u_per_deg_difference`. -/
noncomputable def vAt (lat : ℝ) : ℝ :=
  Real.sqrt (1 - e2Earth * (1 - Real.cos (lat * Real.pi / 180) * Real.cos (lat * Real.pi / 180)))

theorem latm_exactReal (lat u : ℝ) :
    (ZGDIST_u_per_deg_difference exactReal lat u).latm
      = Real.pi / 180 * (6378.137 * (1 - e2Earth)) / (vAt lat * vAt lat * vAt lat) * u := by
  simp only [ZGDIST_u_per_deg_difference, exactReal, ZGDIST_A_EARTH, ZGDIST_B_EARTH, e2Earth, vAt]
  norm_num

theorem lonm_exactReal (lat u : ℝ) :
    (ZGDIST_u_per_deg_difference exactReal lat u).lonm
      = Real.pi / 180 * Real.cos (lat * Real.pi / 180) * (6378.137 / vAt lat) * u := by
  simp only [ZGDIST_u_per_deg_difference, exactReal, ZGDIST_A_EARTH, ZGDIST_B_EARTH, e2Earth, vAt]
  norm_num

theorem dist_exactReal (lat1 lon1 lat2 lon2 latm lonm : ℝ) :
    ZGDIST_dist exactReal lat1 lon1 lat2 lon2 latm lonm
      = Real.sqrt ((lat2 - lat1) * latm * ((lat2 - lat1) * latm)
          + (lon2 - lon1) * lonm * ((lon2 - lon1) * lonm)) := rfl

/-- C1: in exact real arithmetic the code of `ZGDIST_u_per_deg_difference`, with its
unparenthesised macros expanded textually and `sin²` computed as `1 - coslat * coslat`,
returns exactly the reference formulas of the specification (sine taken directly). -/
theorem C1_u_per_deg_difference_eq_spec (lat u : ℝ) :
    ZGDIST_u_per_deg_difference exactReal lat u = spec_deriveScaleFactors lat u := by
  have hrad : lat * Real.pi / 180 = lat * (Real.pi / 180) := by ring
  have hsin : Real.sin (lat * (Real.pi / 180)) ^ 2
      = 1 - Real.cos (lat * (Real.pi / 180)) * Real.cos (lat * (Real.pi / 180)) := by
    rw [Real.sin_sq]; ring
  simp only [ZGDIST_u_per_deg_difference, spec_deriveScaleFactors, exactReal, ZGDIST_A_EARTH,
    ZGDIST_B_EARTH, hrad, hsin, ZGDIST_M.mk.injEq]
  constructor <;> ring_nf

/-- The loop of `ZGDIST_vdist` over the reals: entered at counter `i` with accumulator
`d`, with every index up to `bound` inside both arrays, it returns `d` plus the
segment lengths from `i` to `bound - 1`. -/
theorem vdist_loop_exactReal (vlat vlon : Array ℝ) (latm lonm : ℝ) (bound : ℕ)
    (hlat : bound < vlat.size) (hlon : bound < vlon.size) :
    ∀ (k i : ℕ) (d : ℝ), i + k = bound →
      ZGDIST_vdist_loop exactReal vlat vlon latm lonm bound i d
        = some (d + ∑ j in Finset.Ico i bound,
            ZGDIST_dist exactReal (vlat.getD j 0) (vlon.getD j 0)
              (vlat.getD (j + 1) 0) (vlon.getD (j + 1) 0) latm lonm) := by
  intro k
  induction k with
  | zero =>
    intro i d hi
    have hib : i = bound := by omega
    subst hib
    rw [ZGDIST_vdist_loop]
    simp
  | succ k ih =>
    intro i d hi
    have hib : i < bound := by omega
    have h1 : i < vlat.size := by omega
    have h2 : i < vlon.size := by omega
    have h3 : i + 1 < vlat.size := by omega
    have h4 : i + 1 < vlon.size := by omega
    rw [ZGDIST_vdist_loop]
    simp only [hib, if_true, Array.getElem?_eq_getElem, h1, h2, h3, h4]
    rw [ih (i + 1) _ (by omega), Finset.sum_eq_sum_Ico_succ_bot hib]
    simp [Array.getD, h1, h2, h3, h4, add_assoc]

/-- The `size_t` value of `n - 1` is the natural number `n - 1` when `1 ≤ n`. -/
theorem size_t_pred (w n : ℕ) (hn : 1 ≤ n) (hw : n < 2 ^ w) :
    (n + 2 ^ w - 1) % 2 ^ w = n - 1 := by
  have h : n + 2 ^ w - 1 = (n - 1) + 2 ^ w := by omega
  rw [h, Nat.add_mod_right, Nat.mod_eq_of_lt (by omega)]

/-- C2: for `n ≥ 1` points held in arrays of length at least `n`, `ZGDIST_vdist` returns
the sum over `i = 0 .. n-2` of `ZGDIST_dist` of the points `i` and `i + 1`; in
particular `0` for a single point and `dist A B + dist B C` for three points. -/
theorem C2_vdist_eq_sum (w n : ℕ) (vlat vlon : Array ℝ) (latm lonm : ℝ)
    (hn : 1 ≤ n) (hw : n < 2 ^ w) (hlat : n ≤ vlat.size) (hlon : n ≤ vlon.size) :
    ZGDIST_vdist exactReal w vlat vlon n latm lonm
        = some (∑ i in Finset.range (n - 1),
            ZGDIST_dist exactReal (vlat.getD i 0) (vlon.getD i 0)
              (vlat.getD (i + 1) 0) (vlon.getD (i + 1) 0) latm lonm)
      ∧ (n = 1 → ZGDIST_vdist exactReal w vlat vlon n latm lonm = some 0)
      ∧ (n = 3 → ZGDIST_vdist exactReal w vlat vlon n latm lonm
          = some (ZGDIST_dist exactReal (vlat.getD 0 0) (vlon.getD 0 0)
                    (vlat.getD 1 0) (vlon.getD 1 0) latm lonm
                  + ZGDIST_dist exactReal (vlat.getD 1 0) (vlon.getD 1 0)
                    (vlat.getD 2 0) (vlon.getD 2 0) latm lonm)) := by
  have key : ZGDIST_vdist exactReal w vlat vlon n latm lonm
      = some (∑ i in Finset.range (n - 1),
          ZGDIST_dist exactReal (vlat.getD i 0) (vlon.getD i 0)
            (vlat.getD (i + 1) 0) (vlon.getD (i + 1) 0) latm lonm) := by
    unfold ZGDIST_vdist
    rw [size_t_pred w n hn hw,
      vdist_loop_exactReal vlat vlon latm lonm (n - 1) (by omega) (by omega) (n - 1) 0 0
        (by omega),
      zero_add, Finset.range_eq_Ico]
  refine ⟨key, ?_, ?_⟩
  · intro h1
    subst h1
    simpa using key
  · intro h3
    subst h3
    simpa [Finset.sum_range_succ] using key

/-- The four points `A = (0,0)`, `B = (0,1)`, `C = (1,1)`, `D = (1,0)` with the factors
derived at latitude `0.5` in kilometers: the path length is
`dist A B + dist B C + dist C D`. -/
theorem C2_vdist_eq_sum_witness :
    ZGDIST_vdist exactReal 64 #[0, 0, 1, 1] #[0, 1, 1, 0] 4
        (ZGDIST_u_per_deg_difference exactReal 0.5 ZGDIST_UNIT_KM).latm
        (ZGDIST_u_per_deg_difference exactReal 0.5 ZGDIST_UNIT_KM).lonm
      = some (ZGDIST_dist exactReal 0 0 0 1
                (ZGDIST_u_per_deg_difference exactReal 0.5 ZGDIST_UNIT_KM).latm
                (ZGDIST_u_per_deg_difference exactReal 0.5 ZGDIST_UNIT_KM).lonm
              + ZGDIST_dist exactReal 0 1 1 1
                (ZGDIST_u_per_deg_difference exactReal 0.5 ZGDIST_UNIT_KM).latm
                (ZGDIST_u_per_deg_difference exactReal 0.5 ZGDIST_UNIT_KM).lonm
              + ZGDIST_dist exactReal 1 1 1 0
                (ZGDIST_u_per_deg_difference exactReal 0.5 ZGDIST_UNIT_KM).latm
                (ZGDIST_u_per_deg_difference exactReal 0.5 ZGDIST_UNIT_KM).lonm) := by
  have h := (C2_vdist_eq_sum 64 4 #[0, 0, 1, 1] #[0, 1, 1, 0]
    (ZGDIST_u_per_deg_difference exactReal 0.5 ZGDIST_UNIT_KM).latm
    (ZGDIST_u_per_deg_difference exactReal 0.5 ZGDIST_UNIT_KM).lonm
    (by decide) (by decide) (by decide) (by decide)).1
  simpa [Finset.sum_range_succ] using h

/-- C3: `ZGDIST_dist` is symmetric in the two points, for fixed factors. -/
theorem C3_dist_symm (lat1 lon1 lat2 lon2 latm lonm : ℝ) :
    ZGDIST_dist exactReal lat1 lon1 lat2 lon2 latm lonm
      = ZGDIST_dist exactReal lat2 lon2 lat1 lon1 latm lonm := by
  rw [dist_exactReal, dist_exactReal]
  congr 1
  ring

/-! ## Facts about the constants and the local variable `v` -/

theorem e2Earth_pos : 0 < e2Earth := by
  unfold e2Earth
  norm_num

theorem e2Earth_lt_one : e2Earth < 1 := by
  unfold e2Earth
  norm_num

/-- The argument of the square root that defines `v` is at least `1 - e² > 0`. -/
theorem vAt_arg_pos (lat : ℝ) :
    0 < 1 - e2Earth * (1 - Real.cos (lat * Real.pi / 180) * Real.cos (lat * Real.pi / 180)) := by
  have hc : Real.cos (lat * Real.pi / 180) ^ 2 ≤ 1 := Real.cos_sq_le_one _
  have h0 : 0 ≤ Real.cos (lat * Real.pi / 180) ^ 2 := sq_nonneg _
  nlinarith [e2Earth_pos, e2Earth_lt_one]

theorem vAt_pos (lat : ℝ) : 0 < vAt lat :=
  Real.sqrt_pos.mpr (vAt_arg_pos lat)

theorem vAt_mul_self (lat : ℝ) :
    vAt lat * vAt lat
      = 1 - e2Earth * (1 - Real.cos (lat * Real.pi / 180) * Real.cos (lat * Real.pi / 180)) :=
  Real.mul_self_sqrt (vAt_arg_pos lat).le

theorem vAt_zero : vAt 0 = 1 := by
  simp [vAt]

theorem cos_ninety : Real.cos (90 * Real.pi / 180) = 0 := by
  have h : (90 : ℝ) * Real.pi / 180 = Real.pi / 2 := by ring
  rw [h, Real.cos_pi_div_two]

theorem cos_neg_ninety : Real.cos (-90 * Real.pi / 180) = 0 := by
  have h : (-90 : ℝ) * Real.pi / 180 = -(Real.pi / 2) := by ring
  rw [h, Real.cos_neg, Real.cos_pi_div_two]

/-- The distance is zero exactly when both scaled coordinate differences are zero. -/
theorem dist_eq_zero_iff (lat1 lon1 lat2 lon2 latm lonm : ℝ) :
    ZGDIST_dist exactReal lat1 lon1 lat2 lon2 latm lonm = 0
      ↔ (lat2 - lat1) * latm = 0 ∧ (lon2 - lon1) * lonm = 0 := by
  rw [dist_exactReal, Real.sqrt_eq_zero']
  constructor
  · intro h
    have hy := mul_self_nonneg ((lat2 - lat1) * latm)
    have hx := mul_self_nonneg ((lon2 - lon1) * lonm)
    exact ⟨mul_self_eq_zero.mp (by linarith), mul_self_eq_zero.mp (by linarith)⟩
  · rintro ⟨hy, hx⟩
    rw [hy, hx]
    norm_num

/-! ## The single pair distance -/

/-- C4 (as stated, refuted): `ZGDIST_dist` accepts a zero scale factor, and then distinct
points are at distance zero: with `latm = 1`, `lonm = 0` the points `(0, 0)` and `(0, 1)`,
and with `latm = 0`, `lonm = 1` the points `(0, 0)` and `(1, 0)`.  Every operand is an
integer and every intermediate value is `0` or `1`, so a floating-point run computes
the same values. -/
theorem C4_dist_zero_with_zero_factor :
    (ZGDIST_dist exactReal 0 0 0 1 1 0 = 0 ∧ ¬ ((0 : ℝ) = 0 ∧ (0 : ℝ) = 1))
      ∧ (ZGDIST_dist exactReal 0 0 1 0 0 1 = 0 ∧ ¬ ((0 : ℝ) = 1 ∧ (0 : ℝ) = 0)) := by
  refine ⟨⟨?_, by norm_num⟩, ⟨?_, by norm_num⟩⟩
  · rw [dist_eq_zero_iff]
    norm_num
  · rw [dist_eq_zero_iff]
    norm_num

/-- C4 (amended): in exact real arithmetic, for nonzero scale factors (`latm ≠ 0` and
`lonm ≠ 0`), `ZGDIST_dist` is zero if and only if the two coordinates are identical. -/
theorem C4_dist_eq_zero_iff_of_ne_zero (lat1 lon1 lat2 lon2 latm lonm : ℝ)
    (hlatm : latm ≠ 0) (hlonm : lonm ≠ 0) :
    ZGDIST_dist exactReal lat1 lon1 lat2 lon2 latm lonm = 0
      ↔ lat1 = lat2 ∧ lon1 = lon2 := by
  rw [dist_eq_zero_iff]
  constructor
  · rintro ⟨hy, hx⟩
    rcases mul_eq_zero.mp hy with h | h
    · rcases mul_eq_zero.mp hx with h2 | h2
      · exact ⟨by linarith, by linarith⟩
      · exact absurd h2 hlonm
    · exact absurd h hlatm
  · rintro ⟨h1, h2⟩
    subst h1
    subst h2
    simp

theorem C4_dist_eq_zero_iff_of_ne_zero_witness :
    (ZGDIST_dist exactReal 0 0 0 1 1 1 = 0 ↔ (0 : ℝ) = 0 ∧ (0 : ℝ) = 1)
      ∧ (ZGDIST_dist exactReal 2 3 2 3 1 1 = 0 ↔ (2 : ℝ) = 2 ∧ (3 : ℝ) = 3) :=
  ⟨C4_dist_eq_zero_iff_of_ne_zero 0 0 0 1 1 1 one_ne_zero one_ne_zero,
   C4_dist_eq_zero_iff_of_ne_zero 2 3 2 3 1 1 one_ne_zero one_ne_zero⟩

/-- C10: `ZGDIST_dist` is non-negative for all coordinates and factors of any sign. -/
theorem C10_dist_nonneg (lat1 lon1 lat2 lon2 latm lonm : ℝ) :
    0 ≤ ZGDIST_dist exactReal lat1 lon1 lat2 lon2 latm lonm := by
  rw [dist_exactReal]
  exact Real.sqrt_nonneg _

/-! ## The scale factors -/

/-- C5: both factors are linear in the unit multiplier: scaling `u` by a positive `k`
scales `latm` and `lonm` by `k`. -/
theorem C5_factors_linear_in_unit (lat u k : ℝ) (hk : 0 < k) :
    (ZGDIST_u_per_deg_difference exactReal lat (k * u)).latm
        = k * (ZGDIST_u_per_deg_difference exactReal lat u).latm
      ∧ (ZGDIST_u_per_deg_difference exactReal lat (k * u)).lonm
        = k * (ZGDIST_u_per_deg_difference exactReal lat u).lonm := by
  have hk0 : k ≠ 0 := hk.ne.symm
  simp only [latm_exactReal, lonm_exactReal]
  constructor <;> field_simp [hk0] <;> ring

theorem C5_factors_linear_in_unit_witness :
    (ZGDIST_u_per_deg_difference exactReal 45 (1000 * 1)).latm
        = 1000 * (ZGDIST_u_per_deg_difference exactReal 45 1).latm
      ∧ (ZGDIST_u_per_deg_difference exactReal 45 (1000 * 1)).lonm
        = 1000 * (ZGDIST_u_per_deg_difference exactReal 45 1).lonm :=
  C5_factors_linear_in_unit 45 1 1000 (by norm_num)

/-- C9: at the poles the east-west factor is zero, and with the factors derived there
two points of the same latitude are at distance zero whatever their longitudes. -/
theorem C9_pole_lonm_zero (u : ℝ) :
    (ZGDIST_u_per_deg_difference exactReal 90 u).lonm = 0
      ∧ (ZGDIST_u_per_deg_difference exactReal (-90) u).lonm = 0
      ∧ (∀ lat lon1 lon2 : ℝ,
          ZGDIST_dist exactReal lat lon1 lat lon2
            (ZGDIST_u_per_deg_difference exactReal 90 u).latm
            (ZGDIST_u_per_deg_difference exactReal 90 u).lonm = 0)
      ∧ (∀ lat lon1 lon2 : ℝ,
          ZGDIST_dist exactReal lat lon1 lat lon2
            (ZGDIST_u_per_deg_difference exactReal (-90) u).latm
            (ZGDIST_u_per_deg_difference exactReal (-90) u).lonm = 0) := by
  have hn : (ZGDIST_u_per_deg_difference exactReal 90 u).lonm = 0 := by
    rw [lonm_exactReal, cos_ninety]
    simp
  have hs : (ZGDIST_u_per_deg_difference exactReal (-90) u).lonm = 0 := by
    rw [lonm_exactReal, cos_neg_ninety]
    simp
  refine ⟨hn, hs, ?_, ?_⟩
  · intro lat lon1 lon2
    rw [dist_eq_zero_iff, hn]
    simp
  · intro lat lon1 lon2
    rw [dist_eq_zero_iff, hs]
    simp

/-- The north-south factor at the equator in kilometers is `π / 180 * (a * (1 - e²))`. -/
theorem latm_equator :
    (ZGDIST_u_per_deg_difference exactReal 0 ZGDIST_UNIT_KM).latm
      = Real.pi / 180 * (6378.137 * (1 - e2Earth)) := by
  rw [latm_exactReal, vAt_zero]
  norm_num [ZGDIST_UNIT_KM]

/-- The east-west factor at the equator in kilometers is `π / 180 * a`. -/
theorem lonm_equator :
    (ZGDIST_u_per_deg_difference exactReal 0 ZGDIST_UNIT_KM).lonm
      = Real.pi / 180 * 6378.137 := by
  rw [lonm_exactReal, vAt_zero]
  norm_num [ZGDIST_UNIT_KM]

/-- The north-south factor at the equator in kilometers lies strictly between
`110.5742` and `110.5743`. -/
theorem latm_equator_bounds :
    110.5742 < (ZGDIST_u_per_deg_difference exactReal 0 ZGDIST_UNIT_KM).latm
      ∧ (ZGDIST_u_per_deg_difference exactReal 0 ZGDIST_UNIT_KM).latm < 110.5743 := by
  rw [latm_equator]
  have h1 := Real.pi_gt_d6
  have h2 := Real.pi_lt_d6
  unfold e2Earth
  constructor <;> norm_num <;> linarith

/-- C6 (as stated, refuted): at latitude `0` in kilometers the north-south factor is
not within `0.005` of `111.19`. -/
theorem C6_latm_equator_not_111_19 :
    ¬ (|(ZGDIST_u_per_deg_difference exactReal 0 ZGDIST_UNIT_KM).latm - 111.19| ≤ 0.005) := by
  intro h
  have hb := latm_equator_bounds.2
  have h3 := (abs_le.mp h).1
  norm_num at h3 hb
  linarith

/-- C6 (amended): at latitude `0` in kilometers the north-south factor is approximately
`110.57` km per degree: it is within `0.005` of `110.57`. -/
theorem C6_latm_equator_approx :
    |(ZGDIST_u_per_deg_difference exactReal 0 ZGDIST_UNIT_KM).latm - 110.57| ≤ 0.005 := by
  obtain ⟨h1, h2⟩ := latm_equator_bounds
  rw [abs_le]
  constructor <;> norm_num at h1 h2 ⊢ <;> linarith

/-- C7: at latitude `0` in kilometers the east-west factor is approximately `111.32` km
per degree: it is within `0.005` of `111.32`. -/
theorem C7_lonm_equator_approx :
    |(ZGDIST_u_per_deg_difference exactReal 0 ZGDIST_UNIT_KM).lonm - 111.32| ≤ 0.005 := by
  rw [lonm_equator, abs_le]
  have h1 := Real.pi_gt_d6
  have h2 := Real.pi_lt_d6
  constructor <;> norm_num <;> linarith

/-- The cosine of a latitude in degrees depends only on the absolute value of the
latitude. -/
theorem cos_deg_abs (lat : ℝ) :
    Real.cos (lat * Real.pi / 180) = Real.cos (|lat| * Real.pi / 180) := by
  have h : |lat * Real.pi / 180| = |lat| * Real.pi / 180 := by
    rw [abs_div, abs_mul, abs_of_pos Real.pi_pos, abs_of_pos (by norm_num : (0 : ℝ) < 180)]
  rw [← Real.cos_abs (lat * Real.pi / 180), h]

/-- The east-west factor written as a positive constant times `coslat / v`. -/
theorem lonm_eq_scaled_quotient (lat u : ℝ) :
    (ZGDIST_u_per_deg_difference exactReal lat u).lonm
      = Real.pi / 180 * 6378.137 * u * (Real.cos (lat * Real.pi / 180) / vAt lat) := by
  rw [lonm_exactReal]
  ring

/-- The ratio `coslat / v` is strictly increasing in `coslat ≥ 0`. -/
theorem cos_div_vAt_lt (lat1 lat2 : ℝ)
    (h2 : 0 ≤ Real.cos (lat2 * Real.pi / 180))
    (h12 : Real.cos (lat2 * Real.pi / 180) < Real.cos (lat1 * Real.pi / 180)) :
    Real.cos (lat2 * Real.pi / 180) / vAt lat2 < Real.cos (lat1 * Real.pi / 180) / vAt lat1 := by
  have hv1 := vAt_pos lat1
  have hv2 := vAt_pos lat2
  have hs1 := vAt_mul_self lat1
  have hs2 := vAt_mul_self lat2
  have he := e2Earth_lt_one
  set c1 := Real.cos (lat1 * Real.pi / 180) with hc1
  set c2 := Real.cos (lat2 * Real.pi / 180) with hc2
  have hc1pos : 0 < c1 := lt_of_le_of_lt h2 h12
  rw [div_lt_div_iff₀ hv2 hv1]
  have hsq : (c2 * vAt lat1) * (c2 * vAt lat1) < (c1 * vAt lat2) * (c1 * vAt lat2) := by
    have e1 : (c2 * vAt lat1) * (c2 * vAt lat1) = c2 * c2 * (vAt lat1 * vAt lat1) := by ring
    have e2 : (c1 * vAt lat2) * (c1 * vAt lat2) = c1 * c1 * (vAt lat2 * vAt lat2) := by ring
    rw [e1, e2, hs1, hs2]
    have hd : 0 < (c1 - c2) * (c1 + c2) := mul_pos (by linarith) (by linarith)
    nlinarith [mul_pos hd (by linarith : (0 : ℝ) < 1 - e2Earth)]
  exact lt_of_mul_self_lt_mul_self₀ (mul_nonneg hc1pos.le hv2.le) hsq

/-- C8: the magnitude of the east-west factor shrinks strictly as `|lat|` grows towards
`90`: for `u > 0` and `0 ≤ |lat1| < |lat2| ≤ 90`, `|lonm|` at `lat2` is strictly smaller
than `|lonm|` at `lat1`. -/
theorem C8_lonm_strictly_decreasing (u lat1 lat2 : ℝ) (hu : 0 < u)
    (h0 : 0 ≤ |lat1|) (h12 : |lat1| < |lat2|) (h90 : |lat2| ≤ 90) :
    |(ZGDIST_u_per_deg_difference exactReal lat2 u).lonm|
      < |(ZGDIST_u_per_deg_difference exactReal lat1 u).lonm| := by
  have hpi := Real.pi_pos
  have hx1 : 0 ≤ |lat1| * Real.pi / 180 :=
    div_nonneg (mul_nonneg h0 hpi.le) (by norm_num)
  have hx2 : |lat2| * Real.pi / 180 ≤ Real.pi / 2 := by nlinarith
  have hx12 : |lat1| * Real.pi / 180 < |lat2| * Real.pi / 180 := by
    have := mul_lt_mul_of_pos_right h12 hpi
    linarith
  have hcos : Real.cos (lat2 * Real.pi / 180) < Real.cos (lat1 * Real.pi / 180) := by
    rw [cos_deg_abs lat1, cos_deg_abs lat2]
    exact Real.cos_lt_cos_of_nonneg_of_le_pi_div_two hx1 hx2 hx12
  have hc2 : 0 ≤ Real.cos (lat2 * Real.pi / 180) := by
    rw [cos_deg_abs lat2]
    exact Real.cos_nonneg_of_neg_pi_div_two_le_of_le (by linarith [hx1, hx12]) hx2
  have hquot := cos_div_vAt_lt lat1 lat2 hc2 hcos
  have hK : 0 < Real.pi / 180 * 6378.137 * u := by positivity
  have hr2 : 0 ≤ Real.cos (lat2 * Real.pi / 180) / vAt lat2 :=
    div_nonneg hc2 (vAt_pos lat2).le
  rw [lonm_eq_scaled_quotient, lonm_eq_scaled_quotient,
    abs_of_nonneg (mul_nonneg hK.le hr2),
    abs_of_nonneg (mul_nonneg hK.le (hr2.trans hquot.le))]
  exact mul_lt_mul_of_pos_left hquot hK

theorem C8_lonm_strictly_decreasing_witness :
    |(ZGDIST_u_per_deg_difference exactReal 60 1).lonm|
      < |(ZGDIST_u_per_deg_difference exactReal (-30) 1).lonm| :=
  C8_lonm_strictly_decreasing 1 (-30) 60 one_pos (abs_nonneg _)
    (by norm_num [abs_of_neg, abs_of_pos]) (by norm_num [abs_of_pos])

/-! ## Further properties of the single pair distance -/

/-- C11: the distance from a point to itself is zero, for all factors. -/
theorem C11_dist_self (lat lon latm lonm : ℝ) :
    ZGDIST_dist exactReal lat lon lat lon latm lonm = 0 := by
  rw [dist_eq_zero_iff]
  simp

/-- Scaling both factors by `k` scales the distance by `|k|`. -/
theorem dist_scale_factors (k lat1 lon1 lat2 lon2 latm lonm : ℝ) :
    ZGDIST_dist exactReal lat1 lon1 lat2 lon2 (k * latm) (k * lonm)
      = |k| * ZGDIST_dist exactReal lat1 lon1 lat2 lon2 latm lonm := by
  rw [dist_exactReal, dist_exactReal, ← Real.sqrt_mul_self_eq_abs k,
    ← Real.sqrt_mul (mul_self_nonneg k)]
  congr 1
  ring

/-- C18: changing the unit rescales distances exactly: the distance with the factors
derived for the unit `k * u` is `|k|` times the distance with the factors derived for
`u`; the distance in meters is `1000` times the distance in kilometers. -/
theorem C18_dist_rescales_with_unit (lat u k lat1 lon1 lat2 lon2 : ℝ) :
    ZGDIST_dist exactReal lat1 lon1 lat2 lon2
        (ZGDIST_u_per_deg_difference exactReal lat (k * u)).latm
        (ZGDIST_u_per_deg_difference exactReal lat (k * u)).lonm
      = |k| * ZGDIST_dist exactReal lat1 lon1 lat2 lon2
          (ZGDIST_u_per_deg_difference exactReal lat u).latm
          (ZGDIST_u_per_deg_difference exactReal lat u).lonm
    ∧ ZGDIST_dist exactReal lat1 lon1 lat2 lon2
        (ZGDIST_u_per_deg_difference exactReal lat ZGDIST_UNIT_M).latm
        (ZGDIST_u_per_deg_difference exactReal lat ZGDIST_UNIT_M).lonm
      = 1000 * ZGDIST_dist exactReal lat1 lon1 lat2 lon2
          (ZGDIST_u_per_deg_difference exactReal lat ZGDIST_UNIT_KM).latm
          (ZGDIST_u_per_deg_difference exactReal lat ZGDIST_UNIT_KM).lonm := by
  have hlat : ∀ c v : ℝ, (ZGDIST_u_per_deg_difference exactReal lat (c * v)).latm
      = c * (ZGDIST_u_per_deg_difference exactReal lat v).latm := by
    intro c v
    simp only [latm_exactReal]
    ring
  have hlon : ∀ c v : ℝ, (ZGDIST_u_per_deg_difference exactReal lat (c * v)).lonm
      = c * (ZGDIST_u_per_deg_difference exactReal lat v).lonm := by
    intro c v
    simp only [lonm_exactReal]
    ring
  constructor
  · rw [hlat, hlon, dist_scale_factors]
  · have hm : (ZGDIST_UNIT_M : ℝ) = 1000 * ZGDIST_UNIT_KM := by
      norm_num [ZGDIST_UNIT_M, ZGDIST_UNIT_KM]
    rw [hm, hlat, hlon, dist_scale_factors, abs_of_pos (by norm_num : (0 : ℝ) < 1000)]

/-! ## Definedness and sign of the scale factors -/

/-- C15: `ZGDIST_u_per_deg_difference` raises no error condition at any real latitude:
`0 < e² < 1`, the argument of the square root is at least `1 - e² > 0`, `v` is strictly
positive, and the two divisors of the code, `v * v * v` and `v`, are never zero. -/
theorem C15_no_error_condition (lat u : ℝ) :
    (0 < e2Earth ∧ e2Earth < 1)
      ∧ 0 < 1 - e2Earth
      ∧ 1 - e2Earth
          ≤ 1 - e2Earth
              * (1 - Real.cos (lat * Real.pi / 180) * Real.cos (lat * Real.pi / 180))
      ∧ 0 < vAt lat
      ∧ vAt lat * vAt lat * vAt lat ≠ 0
      ∧ vAt lat ≠ 0
      ∧ (ZGDIST_u_per_deg_difference exactReal lat u).latm
          = Real.pi / 180 * (6378.137 * (1 - e2Earth)) / (vAt lat * vAt lat * vAt lat) * u
      ∧ (ZGDIST_u_per_deg_difference exactReal lat u).lonm
          = Real.pi / 180 * Real.cos (lat * Real.pi / 180) * (6378.137 / vAt lat) * u := by
  have hv := vAt_pos lat
  have hc0 : 0 ≤ Real.cos (lat * Real.pi / 180) ^ 2 := sq_nonneg _
  refine ⟨⟨e2Earth_pos, e2Earth_lt_one⟩, by linarith [e2Earth_lt_one], ?_, hv, ?_, hv.ne.symm,
    latm_exactReal lat u, lonm_exactReal lat u⟩
  · nlinarith [e2Earth_pos]
  · positivity

/-- Away from the poles the cosine of the latitude is strictly positive. -/
theorem cos_deg_pos (lat : ℝ) (hlo : -90 < lat) (hhi : lat < 90) :
    0 < Real.cos (lat * Real.pi / 180) := by
  have hpi := Real.pi_pos
  apply Real.cos_pos_of_mem_Ioo
  constructor <;> nlinarith

/-- The north-south factor is strictly positive for a positive unit multiplier. -/
theorem latm_pos (lat u : ℝ) (hu : 0 < u) :
    0 < (ZGDIST_u_per_deg_difference exactReal lat u).latm := by
  have hv := vAt_pos lat
  have he : 0 < 1 - e2Earth := by linarith [e2Earth_lt_one]
  have hpi := Real.pi_pos
  rw [latm_exactReal]
  positivity

/-- C16: with factors derived away from the poles (`-90 < lat < 90`, `u > 0`) both
factors are strictly positive, and the distance between two points is zero if and
only if the points are identical. -/
theorem C16_positive_factors_separate_points (lat u lat1 lon1 lat2 lon2 : ℝ)
    (hlo : -90 < lat) (hhi : lat < 90) (hu : 0 < u) :
    0 < (ZGDIST_u_per_deg_difference exactReal lat u).latm
      ∧ 0 < (ZGDIST_u_per_deg_difference exactReal lat u).lonm
      ∧ (ZGDIST_dist exactReal lat1 lon1 lat2 lon2
            (ZGDIST_u_per_deg_difference exactReal lat u).latm
            (ZGDIST_u_per_deg_difference exactReal lat u).lonm = 0
          ↔ lat1 = lat2 ∧ lon1 = lon2) := by
  have hlatm := latm_pos lat u hu
  have hlonm : 0 < (ZGDIST_u_per_deg_difference exactReal lat u).lonm := by
    have hv := vAt_pos lat
    have hc := cos_deg_pos lat hlo hhi
    have hpi := Real.pi_pos
    rw [lonm_exactReal]
    positivity
  refine ⟨hlatm, hlonm, ?_⟩
  rw [dist_eq_zero_iff]
  constructor
  · rintro ⟨hy, hx⟩
    rcases mul_eq_zero.mp hy with h | h
    · rcases mul_eq_zero.mp hx with h2 | h2
      · exact ⟨by linarith, by linarith⟩
      · exact absurd h2 hlonm.ne.symm
    · exact absurd h hlatm.ne.symm
  · rintro ⟨h1, h2⟩
    subst h1
    subst h2
    simp

theorem C16_positive_factors_separate_points_witness :
    0 < (ZGDIST_u_per_deg_difference exactReal 45 1).latm
      ∧ 0 < (ZGDIST_u_per_deg_difference exactReal 45 1).lonm
      ∧ (ZGDIST_dist exactReal 0 0 0 1
            (ZGDIST_u_per_deg_difference exactReal 45 1).latm
            (ZGDIST_u_per_deg_difference exactReal 45 1).lonm = 0
          ↔ (0 : ℝ) = 0 ∧ (0 : ℝ) = 1) :=
  C16_positive_factors_separate_points 45 1 0 0 0 1 (by norm_num) (by norm_num) one_pos

/-! ## The loop of the polyline accumulator -/

/-- One execution of the loop body: with the counter below the bound and every index
up to the bound inside both arrays, the loop continues at `i + 1` with the segment
from point `i` to point `i + 1` added to the accumulator. -/
theorem vdist_loop_step (vlat vlon : Array ℝ) (latm lonm : ℝ) (bound i : ℕ) (d : ℝ)
    (hi : i < bound) (hlat : bound < vlat.size) (hlon : bound < vlon.size) :
    ZGDIST_vdist_loop exactReal vlat vlon latm lonm bound i d
      = ZGDIST_vdist_loop exactReal vlat vlon latm lonm bound (i + 1)
          (d + ZGDIST_dist exactReal (vlat.getD i 0) (vlon.getD i 0)
            (vlat.getD (i + 1) 0) (vlon.getD (i + 1) 0) latm lonm) := by
  have h1 : i < vlat.size := by omega
  have h2 : i < vlon.size := by omega
  have h3 : i + 1 < vlat.size := by omega
  have h4 : i + 1 < vlon.size := by omega
  rw [ZGDIST_vdist_loop]
  simp only [hi, if_true, Array.getElem?_eq_getElem, h1, h2, h3, h4]
  simp [Array.getD, h1, h2, h3, h4]

/-- The loop exits as soon as the counter has reached the bound. -/
theorem vdist_loop_exit (vlat vlon : Array ℝ) (latm lonm : ℝ) (bound : ℕ) (d : ℝ) :
    ZGDIST_vdist_loop exactReal vlat vlon latm lonm bound bound d = some d := by
  rw [ZGDIST_vdist_loop]
  simp

/-- C12: for `n = 0` the `size_t` loop bound `n - 1` wraps to `2 ^ w - 1`, the loop
condition `0 < n - 1` holds, and the body reads indices `0` and `1`: on an empty
sequence (any array with fewer than two elements) the bounds-checked run ends in an
out-of-bounds error instead of returning `0`. -/
theorem C12_vdist_zero_length_wraps (w : ℕ) (vlat vlon : Array ℝ) (latm lonm : ℝ)
    (hw : 1 ≤ w) (hshort : vlat.size < 2 ∨ vlon.size < 2) :
    (0 + 2 ^ w - 1) % 2 ^ w = 2 ^ w - 1
      ∧ 0 < (0 + 2 ^ w - 1) % 2 ^ w
      ∧ ZGDIST_vdist exactReal w vlat vlon 0 latm lonm = none
      ∧ ZGDIST_vdist exactReal w vlat vlon 0 latm lonm ≠ some 0 := by
  have h2 : 2 ≤ 2 ^ w := by
    calc 2 = 2 ^ 1 := by norm_num
      _ ≤ 2 ^ w := Nat.pow_le_pow_right (by norm_num) hw
  have hb : (0 + 2 ^ w - 1) % 2 ^ w = 2 ^ w - 1 := by
    rw [Nat.zero_add]
    exact Nat.mod_eq_of_lt (by omega)
  have hpos : 0 < (0 + 2 ^ w - 1) % 2 ^ w := by
    rw [hb]
    omega
  have hnone : ZGDIST_vdist exactReal w vlat vlon 0 latm lonm = none := by
    unfold ZGDIST_vdist
    rw [ZGDIST_vdist_loop, if_pos hpos]
    split
    · rename_i lat1 lon1 lat2 lon2 e1 e2 e3 e4
      rcases hshort with h | h
      · have hlt := (Array.getElem?_eq_some_iff.mp e3).1
        omega
      · have hlt := (Array.getElem?_eq_some_iff.mp e4).1
        omega
    · rfl
  refine ⟨hb, hpos, hnone, ?_⟩
  rw [hnone]
  simp

theorem C12_vdist_zero_length_wraps_witness :
    (0 + 2 ^ 64 - 1) % 2 ^ 64 = 2 ^ 64 - 1
      ∧ 0 < (0 + 2 ^ 64 - 1) % 2 ^ 64
      ∧ ZGDIST_vdist exactReal 64 #[] #[] 0 1 1 = none
      ∧ ZGDIST_vdist exactReal 64 #[] #[] 0 1 1 ≠ some 0 :=
  C12_vdist_zero_length_wraps 64 #[] #[] 1 1 (by decide) (Or.inl (by decide))

/-- After `k` executions of the body, `k` at most the bound, the loop stands at counter
`k` with the first `k` segment lengths accumulated. -/
theorem vdist_loop_after (vlat vlon : Array ℝ) (latm lonm : ℝ) (bound : ℕ)
    (hlat : bound < vlat.size) (hlon : bound < vlon.size) (k : ℕ) (hk : k ≤ bound) :
    ZGDIST_vdist_loop exactReal vlat vlon latm lonm bound 0 0
      = ZGDIST_vdist_loop exactReal vlat vlon latm lonm bound k
          (∑ j in Finset.range k,
            ZGDIST_dist exactReal (vlat.getD j 0) (vlon.getD j 0)
              (vlat.getD (j + 1) 0) (vlon.getD (j + 1) 0) latm lonm) := by
  induction k with
  | zero => simp
  | succ k ih =>
    rw [ih (by omega), vdist_loop_step vlat vlon latm lonm bound k _ (by omega) hlat hlon,
      Finset.sum_range_succ]

/-- C14: under the precondition `n ≥ 1`, with both arrays of length at least `n`, the
loop bound is `n - 1`, every loop index `i < n - 1` has `i` and `i + 1` at most `n - 1`
and all four reads in bounds, after `k ≤ n - 1` executions of the body the loop stands
at counter `k`, at counter `n - 1` it exits, and the run returns a value (never the
out-of-bounds error). -/
theorem C14_vdist_reads_in_bounds (w n : ℕ) (vlat vlon : Array ℝ) (latm lonm : ℝ)
    (hn : 1 ≤ n) (hw : n < 2 ^ w) (hlat : n ≤ vlat.size) (hlon : n ≤ vlon.size) :
    (n + 2 ^ w - 1) % 2 ^ w = n - 1
      ∧ (∀ i : ℕ, i < n - 1 →
          i ≤ n - 1 ∧ i + 1 ≤ n - 1
            ∧ vlat[i]?.isSome ∧ vlon[i]?.isSome ∧ vlat[i + 1]?.isSome ∧ vlon[i + 1]?.isSome)
      ∧ (∀ k : ℕ, k ≤ n - 1 →
          ZGDIST_vdist exactReal w vlat vlon n latm lonm
            = ZGDIST_vdist_loop exactReal vlat vlon latm lonm (n - 1) k
                (∑ j in Finset.range k,
                  ZGDIST_dist exactReal (vlat.getD j 0) (vlon.getD j 0)
                    (vlat.getD (j + 1) 0) (vlon.getD (j + 1) 0) latm lonm))
      ∧ (∀ d : ℝ, ZGDIST_vdist_loop exactReal vlat vlon latm lonm (n - 1) (n - 1) d = some d)
      ∧ (ZGDIST_vdist exactReal w vlat vlon n latm lonm).isSome := by
  have hb := size_t_pred w n hn hw
  have h1 : n - 1 < vlat.size := by omega
  have h2 : n - 1 < vlon.size := by omega
  have hafter : ∀ k : ℕ, k ≤ n - 1 →
      ZGDIST_vdist exactReal w vlat vlon n latm lonm
        = ZGDIST_vdist_loop exactReal vlat vlon latm lonm (n - 1) k
            (∑ j in Finset.range k,
              ZGDIST_dist exactReal (vlat.getD j 0) (vlon.getD j 0)
                (vlat.getD (j + 1) 0) (vlon.getD (j + 1) 0) latm lonm) := by
    intro k hk
    unfold ZGDIST_vdist
    rw [hb]
    exact vdist_loop_after vlat vlon latm lonm (n - 1) h1 h2 k hk
  refine ⟨hb, ?_, hafter, fun d => vdist_loop_exit vlat vlon latm lonm (n - 1) d, ?_⟩
  · intro i hi
    have a1 : i < vlat.size := by omega
    have a2 : i < vlon.size := by omega
    have a3 : i + 1 < vlat.size := by omega
    have a4 : i + 1 < vlon.size := by omega
    refine ⟨by omega, by omega, ?_, ?_, ?_, ?_⟩ <;>
      simp [Array.getElem?_eq_getElem, a1, a2, a3, a4]
  · rw [hafter (n - 1) le_rfl, vdist_loop_exit]
    simp

theorem C14_vdist_reads_in_bounds_witness :
    (ZGDIST_vdist exactReal 64 #[0, 0, 1] #[0, 1, 1] 3 1 1).isSome :=
  (C14_vdist_reads_in_bounds 64 3 #[0, 0, 1] #[0, 1, 1] 1 1
    (by decide) (by decide) (by decide) (by decide)).2.2.2.2

/-! ## Triangle inequality -/

/-- The triangle inequality of the Euclidean plane, on coordinate differences. -/
theorem sqrt_add_le (a b c d : ℝ) :
    Real.sqrt ((a + c) * (a + c) + (b + d) * (b + d))
      ≤ Real.sqrt (a * a + b * b) + Real.sqrt (c * c + d * d) := by
  have hA : 0 ≤ a * a + b * b := by nlinarith [mul_self_nonneg a, mul_self_nonneg b]
  have hC : 0 ≤ c * c + d * d := by nlinarith [mul_self_nonneg c, mul_self_nonneg d]
  have hsA := Real.sqrt_nonneg (a * a + b * b)
  have hsC := Real.sqrt_nonneg (c * c + d * d)
  have hcs : a * c + b * d ≤ Real.sqrt (a * a + b * b) * Real.sqrt (c * c + d * d) := by
    rw [← Real.sqrt_mul hA]
    apply Real.le_sqrt_of_sq_le
    nlinarith [mul_self_nonneg (a * d - b * c)]
  rw [Real.sqrt_le_left (add_nonneg hsA hsC)]
  nlinarith [Real.mul_self_sqrt hA, Real.mul_self_sqrt hC]

/-- The single pair distance satisfies the triangle inequality for fixed factors. -/
theorem dist_triangle (latA lonA latB lonB latC lonC latm lonm : ℝ) :
    ZGDIST_dist exactReal latA lonA latC lonC latm lonm
      ≤ ZGDIST_dist exactReal latA lonA latB lonB latm lonm
        + ZGDIST_dist exactReal latB lonB latC lonC latm lonm := by
  rw [dist_exactReal, dist_exactReal, dist_exactReal]
  have h := sqrt_add_le ((latB - latA) * latm) ((lonB - lonA) * lonm)
    ((latC - latB) * latm) ((lonC - lonB) * lonm)
  have e1 : (latB - latA) * latm + (latC - latB) * latm = (latC - latA) * latm := by ring
  have e2 : (lonB - lonA) * lonm + (lonC - lonB) * lonm = (lonC - lonA) * lonm := by ring
  rw [e1, e2] at h
  exact h

/-- The straight segment from the first point to point `k` is at most the sum of the
first `k` consecutive segments. -/
theorem dist_le_sum_segments (flat flon : ℕ → ℝ) (latm lonm : ℝ) (k : ℕ) :
    ZGDIST_dist exactReal (flat 0) (flon 0) (flat k) (flon k) latm lonm
      ≤ ∑ j in Finset.range k,
          ZGDIST_dist exactReal (flat j) (flon j) (flat (j + 1)) (flon (j + 1)) latm lonm := by
  induction k with
  | zero =>
    rw [(dist_eq_zero_iff _ _ _ _ _ _).mpr (by simp)]
    simp
  | succ k ih =>
    rw [Finset.sum_range_succ]
    have h := dist_triangle (flat 0) (flon 0) (flat k) (flon k) (flat (k + 1)) (flon (k + 1))
      latm lonm
    linarith

/-- C17: a polyline is never shorter than the straight segment between its endpoints:
for `n ≥ 1` points in arrays of length at least `n`, `ZGDIST_vdist` returns a value
that is at least `ZGDIST_dist` of the first and the last point. -/
theorem C17_vdist_ge_endpoint_dist (w n : ℕ) (vlat vlon : Array ℝ) (latm lonm : ℝ)
    (hn : 1 ≤ n) (hw : n < 2 ^ w) (hlat : n ≤ vlat.size) (hlon : n ≤ vlon.size) :
    ∃ s : ℝ, ZGDIST_vdist exactReal w vlat vlon n latm lonm = some s
      ∧ ZGDIST_dist exactReal (vlat.getD 0 0) (vlon.getD 0 0)
          (vlat.getD (n - 1) 0) (vlon.getD (n - 1) 0) latm lonm ≤ s := by
  refine ⟨_, ?_, dist_le_sum_segments (fun j => vlat.getD j 0) (fun j => vlon.getD j 0)
    latm lonm (n - 1)⟩
  unfold ZGDIST_vdist
  rw [size_t_pred w n hn hw,
    vdist_loop_after vlat vlon latm lonm (n - 1) (by omega) (by omega) (n - 1) le_rfl,
    vdist_loop_exit]

theorem C17_vdist_ge_endpoint_dist_witness :
    ∃ s : ℝ, ZGDIST_vdist exactReal 64 #[0, 0, 1, 1] #[0, 1, 1, 0] 4 1 1 = some s
      ∧ ZGDIST_dist exactReal ((#[0, 0, 1, 1] : Array ℝ).getD 0 0)
          ((#[0, 1, 1, 0] : Array ℝ).getD 0 0) ((#[0, 0, 1, 1] : Array ℝ).getD (4 - 1) 0)
          ((#[0, 1, 1, 0] : Array ℝ).getD (4 - 1) 0) 1 1 ≤ s :=
  C17_vdist_ge_endpoint_dist 64 4 #[0, 0, 1, 1] #[0, 1, 1, 0] 1 1
    (by decide) (by decide) (by decide) (by decide)

/-! ## Bounds on the north-south factor -/

/-- The macro text of `1 - e²` is the square of the axis ratio `b / a`. -/
theorem one_sub_e2Earth : 1 - e2Earth = (6356.752314245 / 6378.137) ^ 2 := by
  unfold e2Earth
  norm_num

theorem vAt_le_one (lat : ℝ) : vAt lat ≤ 1 := by
  have hc : Real.cos (lat * Real.pi / 180) ^ 2 ≤ 1 := Real.cos_sq_le_one _
  unfold vAt
  exact Real.sqrt_le_one.mpr (by nlinarith [e2Earth_pos])

theorem axis_quotient_le_vAt (lat : ℝ) : 6356.752314245 / 6378.137 ≤ vAt lat := by
  have hc0 : 0 ≤ Real.cos (lat * Real.pi / 180) ^ 2 := sq_nonneg _
  apply Real.le_sqrt_of_sq_le
  rw [← one_sub_e2Earth]
  nlinarith [e2Earth_pos]

theorem vAt_ninety : vAt 90 = 6356.752314245 / 6378.137 := by
  unfold vAt
  rw [cos_ninety, mul_zero, sub_zero, mul_one, one_sub_e2Earth]
  exact Real.sqrt_sq (by norm_num)

theorem vAt_neg_ninety : vAt (-90) = 6356.752314245 / 6378.137 := by
  unfold vAt
  rw [cos_neg_ninety, mul_zero, sub_zero, mul_one, one_sub_e2Earth]
  exact Real.sqrt_sq (by norm_num)

/-- A positive quantity divided by the cube of `v`, for `r ≤ v ≤ 1`, lies between
the quantity itself and the quantity divided by the cube of `r`. -/
theorem div_cube_bounds (c r v : ℝ) (hc : 0 < c) (hr : 0 < r) (hrv : r ≤ v) (hv1 : v ≤ 1) :
    c ≤ c / (v * v * v) ∧ c / (v * v * v) ≤ c / (r * r * r) := by
  have hv : 0 < v := lt_of_lt_of_le hr hrv
  have hv3 : 0 < v * v * v := by positivity
  have hr3 : 0 < r * r * r := by positivity
  have hle1 : v * v * v ≤ 1 := by
    have h2 : v * v ≤ 1 := by nlinarith
    nlinarith
  have hge : r * r * r ≤ v * v * v := by
    have h2 : r * r ≤ v * v := by nlinarith
    nlinarith [mul_nonneg hr.le hr.le]
  constructor
  · rw [le_div_iff₀ hv3]
    nlinarith
  · exact div_le_div_of_nonneg_left hc.le hr3 hge

/-- C19: for every latitude and every positive unit multiplier the north-south factor
lies between its equatorial value `(π/180) * (b²/a) * u` and its polar value
`(π/180) * (a²/b) * u`; the lower bound is attained at latitude `0`, the upper bound
at latitudes `90` and `-90`. -/
theorem C19_latm_bounds (lat u : ℝ) (hu : 0 < u) :
    Real.pi / 180 * (6356.752314245 ^ 2 / 6378.137) * u
        ≤ (ZGDIST_u_per_deg_difference exactReal lat u).latm
      ∧ (ZGDIST_u_per_deg_difference exactReal lat u).latm
        ≤ Real.pi / 180 * (6378.137 ^ 2 / 6356.752314245) * u
      ∧ (ZGDIST_u_per_deg_difference exactReal 0 u).latm
        = Real.pi / 180 * (6356.752314245 ^ 2 / 6378.137) * u
      ∧ (ZGDIST_u_per_deg_difference exactReal 90 u).latm
        = Real.pi / 180 * (6378.137 ^ 2 / 6356.752314245) * u
      ∧ (ZGDIST_u_per_deg_difference exactReal (-90) u).latm
        = Real.pi / 180 * (6378.137 ^ 2 / 6356.752314245) * u := by
  have hpi := Real.pi_pos
  have hc : 0 < Real.pi / 180 * (6378.137 * (6356.752314245 / 6378.137) ^ 2) := by positivity
  have hlow : Real.pi / 180 * (6356.752314245 ^ 2 / 6378.137)
      = Real.pi / 180 * (6378.137 * (6356.752314245 / 6378.137) ^ 2) := by
    field_simp
    ring
  have hhigh : Real.pi / 180 * (6378.137 ^ 2 / 6356.752314245)
      = Real.pi / 180 * (6378.137 * (6356.752314245 / 6378.137) ^ 2)
          / (6356.752314245 / 6378.137 * (6356.752314245 / 6378.137)
              * (6356.752314245 / 6378.137)) := by
    field_simp
    ring
  obtain ⟨h1, h2⟩ := div_cube_bounds _ _ (vAt lat) hc (by norm_num) (axis_quotient_le_vAt lat)
    (vAt_le_one lat)
  refine ⟨?_, ?_, ?_, ?_, ?_⟩
  · rw [latm_exactReal, one_sub_e2Earth, hlow]
    exact mul_le_mul_of_nonneg_right h1 hu.le
  · rw [latm_exactReal, one_sub_e2Earth, hhigh]
    exact mul_le_mul_of_nonneg_right h2 hu.le
  · rw [latm_exactReal, one_sub_e2Earth, hlow, vAt_zero]
    norm_num
  · rw [latm_exactReal, one_sub_e2Earth, hhigh, vAt_ninety]
  · rw [latm_exactReal, one_sub_e2Earth, hhigh, vAt_neg_ninety]

theorem C19_latm_bounds_witness :
    Real.pi / 180 * (6356.752314245 ^ 2 / 6378.137) * 1
        ≤ (ZGDIST_u_per_deg_difference exactReal 45 1).latm
      ∧ (ZGDIST_u_per_deg_difference exactReal 45 1).latm
        ≤ Real.pi / 180 * (6378.137 ^ 2 / 6356.752314245) * 1 :=
  ⟨(C19_latm_bounds 45 1 one_pos).1, (C19_latm_bounds 45 1 one_pos).2.1⟩

end ZGDist
